import Mathlib

/-!
Shallow embedding of the Market Network Analytics Engine of
SWEChain-Experiments (src/src/gen_baseline.go and the dashboard script in
src/unnamed/part_000), together with proofs and refutations of the frozen
claims about it.

Go `float64` values are embedded as `ℚ` (exact arithmetic); Go slices as
`List`; the in-place `sort.Float64s` as the function `sortFloat64s` below,
whose result is both the post-call state of the caller's slice and the list
the rest of the computation runs on.  `math.Sqrt` and `math.Log2` are not
rational, so functions that mention them take the corresponding real
function as an explicit parameter (`sqrt`, `log2`); no claim below depends
on their values.
-/

namespace SWEChain

/-- Embedding of the Go struct `Node` of gen_baseline.go (fields not read by
any analyzed function are kept for fidelity). -/
structure Node where
  id : String
  group : String := ""
  name : String := ""
  role : String
  specialist : Bool := false
  degree : Int := 0
  deriving Repr, DecidableEq

/-- Embedding of the Go struct `Link` of gen_baseline.go. -/
structure Link where
  source : String
  target : String
  type : String
  label : String := ""
  weight : Int := 0
  bidCount : Int := 0
  winningBid : ℚ := 0
  specialist : Bool := false
  deriving Repr, DecidableEq

/-- Embedding of the Go struct `GraphData`. -/
structure GraphData where
  nodes : List Node
  links : List Link
  deriving Repr, DecidableEq

/-- Embedding of the Go struct `LorenzPoint` (the `Agent`/`Specialist`
fields are never set by `calculateLorenzCurve` and keep their zero values). -/
structure LorenzPoint where
  x : ℚ
  y : ℚ
  agent : String := ""
  specialist : Bool := false
  deriving Repr, DecidableEq

/-- Embedding of Go's in-place ascending `sort.Float64s`: the value of the
caller's slice after the call, and the list the callee keeps working on. -/
def sortFloat64s (values : List ℚ) : List ℚ :=
  values.insertionSort (· ≤ ·)

/-- Embedding of the loop body of `calculateGiniCoefficient`
(gen_baseline.go lines 486-496): running over the sorted values with index
`i` and running prefix sum `cum`, accumulate `(x2 - x1) * y1` where
`x1 = i/n`, `x2 = (i+1)/n` and `y1` is the cumulative share after adding the
current value (the code's comment says "trapezoidal approximation" but the
height used is the right endpoint's cumulative share). -/
def giniSegments (n : ℕ) (sumValues : ℚ) : ℕ → ℚ → List ℚ → ℚ
  | _, _, [] => 0
  | i, cum, v :: rest =>
    let cum2 := cum + v
    let x1 : ℚ := (i : ℚ) / (n : ℚ)
    let x2 : ℚ := ((i : ℚ) + 1) / (n : ℚ)
    let y1 : ℚ := cum2 / sumValues
    (x2 - x1) * y1 + giniSegments n sumValues (i + 1) cum2 rest

/-- Embedding of `calculateGiniCoefficient` (gen_baseline.go lines 467-501):
sorts the values, returns 0 for an empty or zero-sum sequence, otherwise
`1 - 2 * lorenzArea` with `lorenzArea` accumulated by `giniSegments`. -/
def calculateGiniCoefficient (values : List ℚ) : ℚ :=
  let n := values.length
  if n = 0 then 0
  else
    let sortedValues := sortFloat64s values
    let sumValues := sortedValues.sum
    if sumValues = 0 then 0
    else 1 - 2 * giniSegments n sumValues 0 0 sortedValues

/-- Embedding of the point-building loop of `calculateLorenzCurve`
(gen_baseline.go lines 530-538): point `i+1` is `((i+1)/n, cum2/sum)` where
`cum2` is the prefix sum including the current value. -/
def lorenzPoints (n : ℕ) (sumValues : ℚ) : ℕ → ℚ → List ℚ → List LorenzPoint
  | _, _, [] => []
  | i, cum, v :: rest =>
    let cum2 := cum + v
    { x := ((i : ℚ) + 1) / (n : ℚ), y := cum2 / sumValues } ::
      lorenzPoints n sumValues (i + 1) cum2 rest

/-- Embedding of `calculateLorenzCurve` (gen_baseline.go lines 503-540):
empty input gives an empty curve, an all-zero (zero-sum) input gives the
two-point curve `[(0,0),(1,1)]`, otherwise the `(0,0)` start point followed
by one point per sorted value. -/
def calculateLorenzCurve (values : List ℚ) : List LorenzPoint :=
  let n := values.length
  if n = 0 then []
  else
    let sortedValues := sortFloat64s values
    let sumValues := sortedValues.sum
    if sumValues = 0 then [{ x := 0, y := 0 }, { x := 1, y := 1 }]
    else { x := 0, y := 0 } :: lorenzPoints n sumValues 0 0 sortedValues


/-- Embedding of the Go struct `AgentMetrics`. -/
structure AgentMetrics where
  id : String
  name : String
  role : String
  specialist : Bool
  bids : ℕ
  wins : ℕ
  winRate : ℚ
  bidToWinRatio : ℚ
  repeatMatchRate : ℚ
  avgBidValue : ℚ
  totalValue : ℚ
  deriving Repr, DecidableEq

/-- Embedding of the Go struct `TaskMetrics`. -/
structure TaskMetrics where
  id : String
  name : String
  bidCount : ℕ
  avgBid : ℚ
  stdDev : ℚ
  variance : ℚ
  cov : ℚ
  winningBid : ℚ
  clientSurplus : ℚ
  deriving Repr, DecidableEq

/-- Embedding of the Go struct `DegreeData`. -/
structure DegreeData where
  degree : ℕ
  count : ℕ
  deriving Repr, DecidableEq

/-- Embedding of the Go struct `MarketMetrics`. -/
structure MarketMetrics where
  networkDensity : ℚ := 0
  degreeDistribution : List DegreeData := []
  bidVolume : ℚ := 0
  bidVariance : ℚ := 0
  avgPriceEfficiency : ℚ := 0
  clientSurplus : ℚ := 0
  giniCoefficient : ℚ := 0
  winRateDistribution : List ℚ := []
  avgBidToWinRatio : ℚ := 0
  repeatMatchingRate : ℚ := 0
  allocationEntropy : ℚ := 0
  participationElasticity : ℚ := 0
  deriving Repr, DecidableEq

/-- Total win value an agent node accumulates in `calculateAgentMetrics`
(gen_baseline.go lines 606-615): the sum of `WinningBid` over the agent's
outgoing `assigned` links. -/
def totalWinValue (links : List Link) (id : String) : ℚ :=
  ((links.filter (fun l => l.source == id && l.type == "assigned")).map
    (fun l => l.winningBid)).sum

/-- Per-agent-node body of the loop of `calculateAgentMetrics`
(gen_baseline.go lines 589-658); it reads only the node and the links. -/
def agentMetricsFor (links : List Link) (node : Node) : AgentMetrics :=
  let bidLinks := links.filter (fun l => l.source == node.id && l.type == "bidded")
  let bids := bidLinks.length
  let totalBidValue := (bidLinks.map (fun l => l.winningBid)).sum
  let winLinks := links.filter (fun l => l.source == node.id && l.type == "assigned")
  let wins := winLinks.length
  let wonTargets := winLinks.map (fun l => l.target)
  let repeatMatches :=
    (wonTargets.dedup.filter (fun t => 1 < wonTargets.count t)).length
  let repeatMatchRate : ℚ :=
    if 0 < wins then (repeatMatches : ℚ) / (wins : ℚ) else 0
  let winRate : ℚ := if 0 < bids then (wins : ℚ) / (bids : ℚ) else 0
  let avgBidValue : ℚ := if 0 < bids then totalBidValue / (bids : ℚ) else 0
  let bidToWinRatio : ℚ :=
    if 0 < wins then (bids : ℚ) / (wins : ℚ)
    else if 0 < bids then (bids : ℚ) else 0
  { id := node.id, name := node.name, role := node.role,
    specialist := node.specialist, bids := bids, wins := wins,
    winRate := winRate, bidToWinRatio := bidToWinRatio,
    repeatMatchRate := repeatMatchRate, avgBidValue := avgBidValue,
    totalValue := totalWinValue links node.id }

/-- Embedding of `calculateAgentMetrics` (gen_baseline.go lines 589-663):
one `AgentMetrics` row per node whose role is `"agent"`, in node order. -/
def calculateAgentMetrics (graphData : GraphData) : List AgentMetrics :=
  (graphData.nodes.filter (fun n => n.role == "agent")).map
    (agentMetricsFor graphData.links)

/-- Per-task-node body of the loop of `calculateTaskMetrics`
(gen_baseline.go lines 668-735).  `sqrt` embeds `math.Sqrt`; it is only
reached when more than one positive bid exists. -/
def taskMetricsFor (sqrt : ℚ → ℚ) (links : List Link) (node : Node) :
    TaskMetrics :=
  let bidValues :=
    (links.filter (fun l =>
      l.target == node.id && l.type == "bidded" && 0 < l.winningBid)).map
      (fun l => l.winningBid)
  let bidCount := bidValues.length
  let avgBid : ℚ := if 0 < bidCount then bidValues.sum / (bidCount : ℚ) else 0
  let sumSquaredDiff :=
    ((bidValues.map (fun bid => (bid - avgBid) * (bid - avgBid)))).sum
  let variance : ℚ :=
    if 1 < bidCount then sumSquaredDiff / ((bidCount : ℚ) - 1) else 0
  let stdDev : ℚ := if 1 < bidCount then sqrt variance else 0
  let cov : ℚ :=
    if 1 < bidCount then (if 0 < avgBid then stdDev / avgBid else 0) else 0
  let winningBid : ℚ :=
    ((links.find? (fun l => l.target == node.id && l.type == "assigned")).map
      (fun l => l.winningBid)).getD 0
  let clientSurplus : ℚ :=
    if 0 < avgBid ∧ 0 < winningBid then avgBid - winningBid else 0
  { id := node.id, name := node.name, bidCount := bidCount, avgBid := avgBid,
    stdDev := stdDev, variance := variance, cov := cov,
    winningBid := winningBid, clientSurplus := clientSurplus }

/-- Embedding of `calculateTaskMetrics` (gen_baseline.go lines 665-740):
one `TaskMetrics` row per node whose role is `"task"`, in node order. -/
def calculateTaskMetrics (sqrt : ℚ → ℚ) (graphData : GraphData) :
    List TaskMetrics :=
  (graphData.nodes.filter (fun n => n.role == "task")).map
    (taskMetricsFor sqrt graphData.links)

/-- Embedding of `findNodeByID` (gen_baseline.go lines 877-884): the first
node with the given id, if any. -/
def findNodeByID (nodes : List Node) (id : String) : Option Node :=
  nodes.find? (fun n => n.id == id)

/-- Number of nodes with role `"agent"` (the `agentCount` accumulated in
`calculateMarketMetrics` and `calculateNetworkMetrics`). -/
def agentCount (nodes : List Node) : ℕ :=
  (nodes.filter (fun n => n.role == "agent")).length

/-- Number of nodes with role `"task"` (the `taskCount` accumulated in
`calculateMarketMetrics` and `calculateNetworkMetrics`). -/
def taskCount (nodes : List Node) : ℕ :=
  (nodes.filter (fun n => n.role == "task")).length

/-- Degree of one id in `degreeCentrality` (gen_baseline.go lines 434-444):
the number of link endpoints equal to it (a self-loop counts twice). -/
def degreeOf (links : List Link) (id : String) : ℕ :=
  (links.filter (fun l => l.source == id)).length +
    (links.filter (fun l => l.target == id)).length

/-- Key set of the map built by `degreeCentrality`: every node id plus every
link endpoint (Go map keys, embedded as a deduplicated list; the Go map's
iteration order is immaterial because `calculateDegreeDistribution` sorts). -/
def degreeKeys (graphData : GraphData) : List String :=
  ((graphData.nodes.map (fun n => n.id)) ++
    (graphData.links.map (fun l => l.source)) ++
    (graphData.links.map (fun l => l.target))).dedup

/-- Embedding of `degreeCentrality` composed with
`calculateDegreeDistribution` (gen_baseline.go lines 434-465): for each
distinct degree value, the number of map keys with that degree, sorted
ascending by degree. -/
def calculateDegreeDistribution (graphData : GraphData) : List DegreeData :=
  let keys := degreeKeys graphData
  let degreeValues := (keys.map (degreeOf graphData.links)).dedup
  (degreeValues.insertionSort (· ≤ ·)).map
    (fun d => { degree := d,
                count := (keys.filter (fun k => degreeOf graphData.links k = d)).length })

/-- The `actualConnections` count of `calculateMarketMetrics`
(gen_baseline.go lines 761-774): links whose two endpoints resolve to nodes,
one of role `"agent"` and the other of role `"task"`, in either direction. -/
def actualConnections (graphData : GraphData) : ℕ :=
  (graphData.links.filter (fun l =>
    match findNodeByID graphData.nodes l.source,
          findNodeByID graphData.nodes l.target with
    | some s, some t =>
        (s.role == "agent" && t.role == "task") ||
          (s.role == "task" && t.role == "agent")
    | _, _ => false)).length

/-- The `winValues` slice of `calculateMarketMetrics` (gen_baseline.go lines
810-819): the `TotalValue` of each agent row whose total value is strictly
positive, in row order. -/
def winValues (graphData : GraphData) : List ℚ :=
  ((calculateAgentMetrics graphData).filter (fun a => 0 < a.totalValue)).map
    (fun a => a.totalValue)

/-- Embedding of `calculateEntropy` (gen_baseline.go lines 542-550):
`-Σ p·log2 p` over the strictly positive probabilities. -/
def calculateEntropy (log2 : ℚ → ℚ) (probabilities : List ℚ) : ℚ :=
  -(((probabilities.filter (fun p => 0 < p)).map (fun p => p * log2 p)).sum)

/-- Embedding of `calculateAllocationEntropy` (gen_baseline.go lines
552-588): Shannon entropy of the per-agent shares of `assigned` links,
normalized by `log2` of the number of assigned agents. -/
def calculateAllocationEntropy (log2 : ℚ → ℚ) (graphData : GraphData) : ℚ :=
  let sources :=
    (graphData.links.filter (fun l => l.type == "assigned")).map
      (fun l => l.source)
  let keys := sources.dedup
  let totalAssignments := (keys.map (fun k => sources.count k)).sum
  if totalAssignments = 0 then 0
  else
    let probabilities :=
      keys.map (fun k => (sources.count k : ℚ) / (totalAssignments : ℚ))
    let rawEntropy := calculateEntropy log2 probabilities
    let maxEntropy := log2 (keys.length : ℚ)
    if 0 < maxEntropy then rawEntropy / maxEntropy else 0

/-- Embedding of `calculateMarketMetrics` (gen_baseline.go lines 742-875).
`log2` embeds `math.Log2` (reaching the `AllocationEntropy` field only) and
`sqrt` embeds `math.Sqrt` (reaching task standard deviations only). -/
def calculateMarketMetrics (log2 : ℚ → ℚ) (sqrt : ℚ → ℚ)
    (graphData : GraphData) : MarketMetrics :=
  let possibleConnections := agentCount graphData.nodes * taskCount graphData.nodes
  let networkDensity : ℚ :=
    if 0 < possibleConnections then
      (actualConnections graphData : ℚ) / (possibleConnections : ℚ)
    else 0
  let allBidLinks := graphData.links.filter (fun l => l.type == "bidded")
  let bidValues :=
    ((allBidLinks.filter (fun l => 0 < l.winningBid)).map (fun l => l.winningBid))
  let totalBidValue := bidValues.sum
  let bidVariance : ℚ :=
    if 1 < bidValues.length then
      let mean := totalBidValue / (bidValues.length : ℚ)
      ((bidValues.map (fun bid => (bid - mean) * (bid - mean))).sum) /
        ((bidValues.length : ℚ) - 1)
    else 0
  let agentMetrics := calculateAgentMetrics graphData
  let winRates :=
    ((agentMetrics.filter (fun a => 0 < a.bids)).map (fun a => a.winRate))
  let giniCoefficient := calculateGiniCoefficient (winValues graphData)
  let agentsWithBids := (agentMetrics.filter (fun a => 0 < a.bids)).length
  let avgBidToWinRatio : ℚ :=
    if 0 < agentsWithBids then
      ((agentMetrics.filter (fun a => 0 < a.bids)).map
        (fun a => a.bidToWinRatio)).sum / (agentsWithBids : ℚ)
    else 0
  let repeatMatchingRate : ℚ :=
    if 0 < agentsWithBids then
      ((agentMetrics.filter (fun a => 0 < a.bids)).map
        (fun a => a.repeatMatchRate)).sum / (agentsWithBids : ℚ)
    else 0
  let taskMetrics := calculateTaskMetrics sqrt graphData
  let tasksWithBids :=
    (taskMetrics.filter (fun t => 0 < t.bidCount ∧ 0 < t.winningBid)).length
  let totalClientSurplus :=
    ((taskMetrics.filter (fun t => 0 < t.bidCount ∧ 0 < t.winningBid)).map
      (fun t => t.clientSurplus)).sum
  let avgPriceEfficiency : ℚ :=
    if 0 < tasksWithBids then totalClientSurplus / (tasksWithBids : ℚ) else 0
  let clientSurplus : ℚ := if 0 < tasksWithBids then totalClientSurplus else 0
  let allocationEntropy := calculateAllocationEntropy log2 graphData
  let participationElasticity : ℚ :=
    if 0 < agentCount graphData.nodes ∧ 0 < taskCount graphData.nodes then
      min (networkDensity * (1 - giniCoefficient) * 2) 2
    else 0
  { networkDensity := networkDensity,
    degreeDistribution := calculateDegreeDistribution graphData,
    bidVolume := (allBidLinks.length : ℚ),
    bidVariance := bidVariance,
    avgPriceEfficiency := avgPriceEfficiency,
    clientSurplus := clientSurplus,
    giniCoefficient := giniCoefficient,
    winRateDistribution := winRates,
    avgBidToWinRatio := avgBidToWinRatio,
    repeatMatchingRate := repeatMatchingRate,
    allocationEntropy := allocationEntropy,
    participationElasticity := participationElasticity }

/-- Number of links with type `"assigned"` (the `assignedCount` accumulated
in `calculateNetworkMetrics`, gen_baseline.go lines 928-975). -/
def assignedCount (links : List Link) : ℕ :=
  (links.filter (fun l => l.type == "assigned")).length

/-- Embedding of the `"networkDensity"` entry that `calculateNetworkMetrics`
stores in its result map (gen_baseline.go lines 981-987):
`assignedCount / (agentCount * taskCount)` when both sides are non-empty,
and 0 otherwise. -/
def networkDensityEntry (graphData : GraphData) : ℚ :=
  let possibleLinks := agentCount graphData.nodes * taskCount graphData.nodes
  if 0 < possibleLinks then
    (assignedCount graphData.links : ℚ) / (possibleLinks : ℚ)
  else 0

/-- Neighbor set built by `getClusteringCoefficients`
(src/unnamed/part_000 lines 518-524) for an id `v`: if `v` is a node id, the
deduplicated counterparts of every link touching `v` (targets of links with
source `v` and sources of links with target `v`); for a non-node id the
script never builds a set, embedded as the empty list. -/
def adjOf (nodes : List Node) (links : List Link) (v : String) : List String :=
  if nodes.any (fun n => n.id == v) then
    (((links.filter (fun l => l.source == v)).map (fun l => l.target)) ++
      ((links.filter (fun l => l.target == v)).map (fun l => l.source))).dedup
  else []

/-- The double loop of `getClusteringCoefficients`
(src/unnamed/part_000 lines 533-537): for each ordered pair of positions
`i < j` in the neighbor list, count 1 when the adjacency set of the earlier
neighbor holds the later one. -/
def countPairs (adjFn : String → List String) : List String → ℕ
  | [] => 0
  | x :: xs => (xs.filter (fun y => (adjFn x).contains y)).length + countPairs adjFn xs

/-- Per-node body of `getClusteringCoefficients`
(src/unnamed/part_000 lines 526-539): 0 for fewer than 2 distinct neighbors,
else the counted neighbor pairs divided by `k·(k−1)/2`. -/
def clusteringCoefficientOf (nodes : List Node) (links : List Link)
    (n : Node) : ℚ :=
  let neighbors := adjOf nodes links n.id
  let k := neighbors.length
  if k < 2 then 0
  else (countPairs (adjOf nodes links) neighbors : ℚ) /
    ((k : ℚ) * ((k : ℚ) - 1) / 2)

/-- Embedding of `getClusteringCoefficients`
(src/unnamed/part_000 lines 518-541): one coefficient per node, in node
order. -/
def getClusteringCoefficients (nodes : List Node) (links : List Link) :
    List ℚ :=
  nodes.map (clusteringCoefficientOf nodes links)

/-- Concrete graph: one task with a single bid of 10 and an assigned link of
30, so the winning bid exceeds the mean bid. -/
def surplusGraph : GraphData :=
  { nodes := [{ id := "T1", role := "task" }],
    links := [{ source := "A1", target := "T1", type := "bidded", winningBid := 10 },
              { source := "A1", target := "T1", type := "assigned", winningBid := 30 }] }

/-- Concrete graph: one task with a single zero-amount bid link. -/
def zeroBidGraph : GraphData :=
  { nodes := [{ id := "T1", role := "task" }],
    links := [{ source := "A1", target := "T1", type := "bidded", winningBid := 0 }] }

/-- Concrete graph: one agent, one task, and two parallel `assigned` links
between them. -/
def parallelGraph : GraphData :=
  { nodes := [{ id := "A1", role := "agent" }, { id := "T1", role := "task" }],
    links := [{ source := "A1", target := "T1", type := "assigned", winningBid := 5 },
              { source := "A1", target := "T1", type := "assigned", winningBid := 5 }] }

/-- Concrete graph: one agent only, no task nodes and no links. -/
def agentOnlyGraph : GraphData :=
  { nodes := [{ id := "A1", role := "agent" }], links := [] }

/-- Concrete graph: one winning agent and one task, with one bid and one
assignment of value 7. -/
def oneWinGraph : GraphData :=
  { nodes := [{ id := "A1", role := "agent" }, { id := "T1", role := "task" }],
    links := [{ source := "A1", target := "T1", type := "bidded", winningBid := 7 },
              { source := "A1", target := "T1", type := "assigned", winningBid := 7 }] }

/-- Concrete agent node with no wins used as a zero-total-value addition. -/
def idleAgent : Node :=
  { id := "Z1", role := "agent" }

/-- Concrete graph: a lone bidding agent with one bid and no wins (the spec's
example agent `A2`). -/
def loneBidderGraph : GraphData :=
  { nodes := [{ id := "A2", role := "agent" }],
    links := [{ source := "A2", target := "T1", type := "bidded", winningBid := 80 }] }

lemma sortFloat64s_perm (l : List ℚ) : (sortFloat64s l).Perm l :=
  List.perm_insertionSort _ l

lemma sortFloat64s_sorted (l : List ℚ) :
    List.Sorted (· ≤ ·) (sortFloat64s l) :=
  List.sorted_insertionSort _ l

lemma sortFloat64s_length (l : List ℚ) :
    (sortFloat64s l).length = l.length :=
  (sortFloat64s_perm l).length_eq

lemma sortFloat64s_sum (l : List ℚ) : (sortFloat64s l).sum = l.sum :=
  (sortFloat64s_perm l).sum_eq

lemma sortFloat64s_eq_of_perm {l₁ l₂ : List ℚ} (h : l₁.Perm l₂) :
    sortFloat64s l₁ = sortFloat64s l₂ :=
  List.eq_of_perm_of_sorted
    (((sortFloat64s_perm l₁).trans h).trans (sortFloat64s_perm l₂).symm)
    (sortFloat64s_sorted l₁) (sortFloat64s_sorted l₂)

/-- C1: the claim that `calculateGiniCoefficient` always lands in `[0,1]`
and is 0 on equal-valued sequences fails on the code: on `[1,1,1]` the
right-endpoint accumulation (the comment in the source promises a
trapezoidal rule) yields `-1/3`, which is negative and not 0. -/
theorem C1_gini_equal_values_negative :
    calculateGiniCoefficient [1, 1, 1] = -1/3 ∧
    calculateGiniCoefficient [1, 1, 1] < 0 := by
  constructor <;>
    norm_num [calculateGiniCoefficient, sortFloat64s, giniSegments,
      List.insertionSort, List.orderedInsert]

/-- C4: the claim that `calculateGiniCoefficient [0,0,100] = 2/3` fails on
the code: the right-endpoint accumulation returns `1/3` (the trapezoidal
rule promised by the source's comment would give `2/3`). -/
theorem C4_gini_example_value :
    calculateGiniCoefficient [0, 0, 100] = 1/3 ∧ (1/3 : ℚ) ≠ 2/3 := by
  constructor
  · norm_num [calculateGiniCoefficient, sortFloat64s, giniSegments,
      List.insertionSort, List.orderedInsert]
  · norm_num

/-- C10: both `calculateGiniCoefficient` and `calculateLorenzCurve` sort the
caller's slice in place — afterwards it holds the same multiset in ascending
order (`sortFloat64s` is that post-call state) — and their results depend
only on the multiset of input values. -/
theorem C10_sort_in_place_and_perm_invariance (l₁ l₂ : List ℚ)
    (h : l₁.Perm l₂) :
    (sortFloat64s l₁).Perm l₁ ∧
    List.Sorted (· ≤ ·) (sortFloat64s l₁) ∧
    sortFloat64s l₁ = sortFloat64s l₂ ∧
    calculateGiniCoefficient l₁ = calculateGiniCoefficient l₂ ∧
    calculateLorenzCurve l₁ = calculateLorenzCurve l₂ := by
  refine ⟨sortFloat64s_perm l₁, sortFloat64s_sorted l₁,
    sortFloat64s_eq_of_perm h, ?_, ?_⟩
  · unfold calculateGiniCoefficient
    rw [h.length_eq, sortFloat64s_eq_of_perm h]
  · unfold calculateLorenzCurve
    rw [h.length_eq, sortFloat64s_eq_of_perm h]

/-- Witness for C10 at the concrete permuted pair `[3,1,2]` and `[2,3,1]`. -/
theorem C10_sort_in_place_and_perm_invariance_witness :
    ([3, 1, 2] : List ℚ).Perm [2, 3, 1] ∧
    ((sortFloat64s [3, 1, 2]).Perm [3, 1, 2] ∧
      List.Sorted (· ≤ ·) (sortFloat64s [3, 1, 2]) ∧
      sortFloat64s [3, 1, 2] = sortFloat64s [2, 3, 1] ∧
      calculateGiniCoefficient [3, 1, 2] = calculateGiniCoefficient [2, 3, 1] ∧
      calculateLorenzCurve [3, 1, 2] = calculateLorenzCurve [2, 3, 1]) :=
  ⟨by decide, C10_sort_in_place_and_perm_invariance [3, 1, 2] [2, 3, 1] (by decide)⟩

/-- C5 counterexample: on the all-zero two-element sequence the code returns
the fixed two-point curve, not the claimed `n + 1 = 3` points. -/
theorem C5_counterexample :
    (calculateLorenzCurve [0, 0]).length ≠ ([0, 0] : List ℚ).length + 1 := by
  norm_num [calculateLorenzCurve, sortFloat64s, lorenzPoints,
    List.insertionSort, List.orderedInsert]

lemma lorenzPoints_length (n : ℕ) (S : ℚ) :
    ∀ (l : List ℚ) (i : ℕ) (cum : ℚ), (lorenzPoints n S i cum l).length = l.length
  | [], _, _ => rfl
  | _ :: rest, i, cum => by
    simp [lorenzPoints, lorenzPoints_length n S rest]

lemma getLast?_cons_of_ne_nil {α : Type} (a : α) {l : List α} (h : l ≠ []) :
    (a :: l).getLast? = l.getLast? := by
  cases l with
  | nil => exact absurd rfl h
  | cons b t => exact List.getLast?_cons_cons

lemma lorenzPoints_getLast (n : ℕ) (S : ℚ) :
    ∀ (l : List ℚ) (i : ℕ) (cum : ℚ), l ≠ [] →
      (lorenzPoints n S i cum l).getLast? =
        some { x := ((i : ℚ) + (l.length : ℚ)) / (n : ℚ),
               y := (cum + l.sum) / S }
  | [], _, _, h => absurd rfl h
  | [v], i, cum, _ => by
    simp [lorenzPoints]
  | v :: w :: rest, i, cum, _ => by
    have ih := lorenzPoints_getLast n S (w :: rest) (i + 1) (cum + v)
      (List.cons_ne_nil w rest)
    have hne : lorenzPoints n S (i + 1) (cum + v) (w :: rest) ≠ [] := by
      intro h
      have hl := lorenzPoints_length n S (w :: rest) (i + 1) (cum + v)
      rw [h] at hl
      exact (List.cons_ne_nil w rest) (List.length_eq_zero.mp hl.symm)
    rw [show lorenzPoints n S i cum (v :: w :: rest) =
        { x := ((i : ℚ) + 1) / (n : ℚ), y := (cum + v) / S } ::
          lorenzPoints n S (i + 1) (cum + v) (w :: rest) from rfl,
      getLast?_cons_of_ne_nil _ hne, ih]
    simp only [List.length_cons, List.sum_cons, LorenzPoint.mk.injEq,
      Option.some.injEq, and_true]
    constructor
    · push_cast
      ring
    · ring

lemma lorenzPoints_chain (n : ℕ) (S : ℚ) (hS : 0 < S) :
    ∀ (l : List ℚ) (i : ℕ) (cum : ℚ) (p : LorenzPoint), p.y = cum / S →
      (∀ v ∈ l, 0 ≤ v) →
      List.Chain' (fun a b => a.y ≤ b.y) (p :: lorenzPoints n S i cum l)
  | [], _, _, _, _, _ => List.chain'_singleton _
  | v :: rest, i, cum, p, hp, hnn => by
    rw [show lorenzPoints n S i cum (v :: rest) =
        { x := ((i : ℚ) + 1) / (n : ℚ), y := (cum + v) / S } ::
          lorenzPoints n S (i + 1) (cum + v) rest from rfl]
    refine List.chain'_cons.mpr ⟨?_, ?_⟩
    · rw [hp]
      have hv : 0 ≤ v := hnn v (List.mem_cons_self v rest)
      exact (div_le_div_iff_of_pos_right hS).mpr (by linarith)
    · exact lorenzPoints_chain n S hS rest (i + 1) (cum + v) _ rfl
        (fun w hw => hnn w (List.mem_cons_of_mem v hw))

/-- C5 (amended): for a sequence of non-negative values with positive sum
the curve has `n+1` points, starts at `(0,0)`, ends at `(1,1)` and is
non-decreasing in `y`; for a non-empty zero-sum (all-zero) sequence the code
instead returns the fixed two-point curve `[(0,0),(1,1)]`. -/
theorem C5_lorenz_curve_spec (values : List ℚ) (hnn : ∀ v ∈ values, 0 ≤ v) :
    (0 < values.sum →
      (calculateLorenzCurve values).length = values.length + 1 ∧
      (calculateLorenzCurve values).head? = some { x := 0, y := 0 } ∧
      (calculateLorenzCurve values).getLast? = some { x := 1, y := 1 } ∧
      List.Chain' (fun a b => a.y ≤ b.y) (calculateLorenzCurve values)) ∧
    (values ≠ [] → values.sum = 0 →
      calculateLorenzCurve values = [{ x := 0, y := 0 }, { x := 1, y := 1 }]) := by
  constructor
  · intro hpos
    have hne : values ≠ [] := by
      rintro rfl
      simp at hpos
    have hlen : values.length ≠ 0 := by
      simpa [List.length_eq_zero] using hne
    have hsum : (sortFloat64s values).sum = values.sum := sortFloat64s_sum values
    have hS : (sortFloat64s values).sum ≠ 0 := by rw [hsum]; exact ne_of_gt hpos
    have hcurve : calculateLorenzCurve values =
        { x := 0, y := 0 } ::
          lorenzPoints values.length (sortFloat64s values).sum 0 0
            (sortFloat64s values) := by
      unfold calculateLorenzCurve
      simp [hlen, hS]
    have hsortne : sortFloat64s values ≠ [] := by
      intro h
      apply hlen
      rw [← sortFloat64s_length values, h]
      rfl
    refine ⟨?_, ?_, ?_, ?_⟩
    · rw [hcurve]
      simp [lorenzPoints_length, sortFloat64s_length]
    · rw [hcurve]; rfl
    · rw [hcurve, getLast?_cons_of_ne_nil _ ?_, lorenzPoints_getLast _ _ _ _ _ hsortne]
      · have h1 : ((sortFloat64s values).length : ℚ) = (values.length : ℚ) := by
          rw [sortFloat64s_length]
        have h2 : (values.length : ℚ) ≠ 0 := Nat.cast_ne_zero.mpr hlen
        have h3 : values.sum ≠ 0 := ne_of_gt hpos
        simp only [Option.some.injEq, LorenzPoint.mk.injEq, and_true]
        constructor
        · rw [h1]
          push_cast
          field_simp
        · rw [hsum]
          field_simp
      · intro h
        apply hsortne
        have := lorenzPoints_length values.length (sortFloat64s values).sum
          (sortFloat64s values) 0 0
        rw [h] at this
        exact (List.length_eq_zero.mp this.symm)
    · rw [hcurve]
      have hSpos : 0 < (sortFloat64s values).sum := by rw [hsum]; exact hpos
      exact lorenzPoints_chain _ _ hSpos _ 0 0 _ (by simp)
        (fun v hv => hnn v ((sortFloat64s_perm values).mem_iff.mp hv))
  · intro hne hzero
    have hlen : values.length ≠ 0 := by
      simpa [List.length_eq_zero] using hne
    have hS : (sortFloat64s values).sum = 0 := by
      rw [sortFloat64s_sum]; exact hzero
    unfold calculateLorenzCurve
    simp [hlen, hS]

lemma agentMetricsFor_winRate (links : List Link) (node : Node) :
    (agentMetricsFor links node).winRate =
      if 0 < (agentMetricsFor links node).bids then
        ((agentMetricsFor links node).wins : ℚ) /
          ((agentMetricsFor links node).bids : ℚ)
      else 0 := rfl

lemma agentMetricsFor_bidToWinRatio (links : List Link) (node : Node) :
    (agentMetricsFor links node).bidToWinRatio =
      if 0 < (agentMetricsFor links node).wins then
        ((agentMetricsFor links node).bids : ℚ) /
          ((agentMetricsFor links node).wins : ℚ)
      else if 0 < (agentMetricsFor links node).bids then
        ((agentMetricsFor links node).bids : ℚ)
      else 0 := rfl

/-- C2 counterexample: in `surplusGraph` the task's only positive bid is 10
and the assigned link carries 30, so the code reports `clientSurplus = -20`,
a negative value, where the claim demands 0. -/
theorem C2_counterexample :
    ((calculateTaskMetrics (fun q => q) surplusGraph).map
      (fun m => m.clientSurplus)) = [-20] ∧ ¬ (0 ≤ (-20 : ℚ)) := by
  constructor
  · simp [calculateTaskMetrics, taskMetricsFor, surplusGraph]
    norm_num
  · norm_num

/-- C2 (amended): `clientSurplus` equals `avgBid - winningBid` whenever both
are positive — with no clamping, so it is negative whenever the winning bid
exceeds the mean bid — and is 0 otherwise. -/
theorem C2_client_surplus (sqrt : ℚ → ℚ) (g : GraphData) (m : TaskMetrics)
    (hm : m ∈ calculateTaskMetrics sqrt g) :
    m.clientSurplus =
      if 0 < m.avgBid ∧ 0 < m.winningBid then m.avgBid - m.winningBid
      else 0 := by
  rcases List.mem_map.mp hm with ⟨node, _, rfl⟩
  rfl

/-- Witness for C2 at `surplusGraph` and its task node. -/
theorem C2_client_surplus_witness :
    (taskMetricsFor (fun q => q) surplusGraph.links { id := "T1", role := "task" } ∈
      calculateTaskMetrics (fun q => q) surplusGraph) ∧
    (taskMetricsFor (fun q => q) surplusGraph.links { id := "T1", role := "task" }).clientSurplus =
      if 0 < (taskMetricsFor (fun q => q) surplusGraph.links { id := "T1", role := "task" }).avgBid ∧
          0 < (taskMetricsFor (fun q => q) surplusGraph.links { id := "T1", role := "task" }).winningBid then
        (taskMetricsFor (fun q => q) surplusGraph.links { id := "T1", role := "task" }).avgBid -
          (taskMetricsFor (fun q => q) surplusGraph.links { id := "T1", role := "task" }).winningBid
      else 0 := by
  have hm : taskMetricsFor (fun q => q) surplusGraph.links { id := "T1", role := "task" } ∈
      calculateTaskMetrics (fun q => q) surplusGraph := by
    simp [calculateTaskMetrics, surplusGraph]
  exact ⟨hm, C2_client_surplus (fun q => q) surplusGraph _ hm⟩

/-- C6 counterexample: in `zeroBidGraph` the task is targeted by exactly one
`bidded` link, whose amount is 0; the code filters it out and reports
`bidCount = 0`, while the claim counts every bid-type edge. -/
theorem C6_counterexample :
    ((calculateTaskMetrics (fun q => q) zeroBidGraph).map
      (fun m => m.bidCount)) = [0] ∧
    (zeroBidGraph.links.filter
      (fun l => l.target == "T1" && l.type == "bidded")).length = 1 := by
  constructor
  · norm_num [calculateTaskMetrics, taskMetricsFor, zeroBidGraph, List.filter]
  · norm_num [zeroBidGraph, List.filter]

/-- C6 (amended): a task row's `bidCount` is the number of `bidded` links
targeting the task whose amount is strictly positive (zero-amount bid links
are excluded), and when `bidCount` is 0 the mean, variance, standard
deviation and coefficient of variation are all 0. -/
theorem C6_task_bid_count (sqrt : ℚ → ℚ) (g : GraphData) (node : Node)
    (hn : node ∈ g.nodes) (hrole : node.role = "task") :
    taskMetricsFor sqrt g.links node ∈ calculateTaskMetrics sqrt g ∧
    (taskMetricsFor sqrt g.links node).bidCount =
      (g.links.filter (fun l =>
        l.target == node.id && l.type == "bidded" && 0 < l.winningBid)).length ∧
    ((taskMetricsFor sqrt g.links node).bidCount = 0 →
      (taskMetricsFor sqrt g.links node).avgBid = 0 ∧
      (taskMetricsFor sqrt g.links node).variance = 0 ∧
      (taskMetricsFor sqrt g.links node).stdDev = 0 ∧
      (taskMetricsFor sqrt g.links node).cov = 0) := by
  refine ⟨?_, ?_, ?_⟩
  · exact List.mem_map_of_mem _ (List.mem_filter.mpr ⟨hn, by simp [hrole]⟩)
  · simp [taskMetricsFor]
  · intro h0
    have h0' : (g.links.filter (fun l =>
        l.target == node.id && l.type == "bidded" && 0 < l.winningBid)).length = 0 := by
      simpa [taskMetricsFor] using h0
    refine ⟨?_, ?_, ?_, ?_⟩ <;> simp [taskMetricsFor, h0']

/-- Witness for C6 at `zeroBidGraph` and its task node. -/
theorem C6_task_bid_count_witness :
    ({ id := "T1", role := "task" } : Node) ∈ zeroBidGraph.nodes ∧
    ({ id := "T1", role := "task" } : Node).role = "task" ∧
    (taskMetricsFor (fun q => q) zeroBidGraph.links { id := "T1", role := "task" } ∈
        calculateTaskMetrics (fun q => q) zeroBidGraph ∧
      (taskMetricsFor (fun q => q) zeroBidGraph.links { id := "T1", role := "task" }).bidCount =
        (zeroBidGraph.links.filter (fun l =>
          l.target == ({ id := "T1", role := "task" } : Node).id &&
            l.type == "bidded" && 0 < l.winningBid)).length ∧
      ((taskMetricsFor (fun q => q) zeroBidGraph.links { id := "T1", role := "task" }).bidCount = 0 →
        (taskMetricsFor (fun q => q) zeroBidGraph.links { id := "T1", role := "task" }).avgBid = 0 ∧
        (taskMetricsFor (fun q => q) zeroBidGraph.links { id := "T1", role := "task" }).variance = 0 ∧
        (taskMetricsFor (fun q => q) zeroBidGraph.links { id := "T1", role := "task" }).stdDev = 0 ∧
        (taskMetricsFor (fun q => q) zeroBidGraph.links { id := "T1", role := "task" }).cov = 0)) :=
  ⟨by simp [zeroBidGraph], rfl,
    C6_task_bid_count (fun q => q) zeroBidGraph _ (by simp [zeroBidGraph]) rfl⟩

/-- C7: a bidding agent's `winRate` is `wins/bids` and 0 when it has no
bids; `bidToWinRatio` is `bids/wins` for a winning agent, the sentinel
`bids` for an agent with bids but no wins, and 0 for an agent with neither:
every division is guarded. -/
theorem C7_agent_rate_guards (g : GraphData) (node : Node)
    (hn : node ∈ g.nodes) (hrole : node.role = "agent") :
    agentMetricsFor g.links node ∈ calculateAgentMetrics g ∧
    ((agentMetricsFor g.links node).bids = 0 →
      (agentMetricsFor g.links node).winRate = 0) ∧
    (0 < (agentMetricsFor g.links node).bids →
      (agentMetricsFor g.links node).winRate =
        ((agentMetricsFor g.links node).wins : ℚ) /
          ((agentMetricsFor g.links node).bids : ℚ)) ∧
    (0 < (agentMetricsFor g.links node).wins →
      (agentMetricsFor g.links node).bidToWinRatio =
        ((agentMetricsFor g.links node).bids : ℚ) /
          ((agentMetricsFor g.links node).wins : ℚ)) ∧
    ((agentMetricsFor g.links node).wins = 0 →
      0 < (agentMetricsFor g.links node).bids →
      (agentMetricsFor g.links node).bidToWinRatio =
        ((agentMetricsFor g.links node).bids : ℚ)) ∧
    ((agentMetricsFor g.links node).wins = 0 →
      (agentMetricsFor g.links node).bids = 0 →
      (agentMetricsFor g.links node).bidToWinRatio = 0) := by
  refine ⟨List.mem_map_of_mem _ (List.mem_filter.mpr ⟨hn, by simp [hrole]⟩),
    ?_, ?_, ?_, ?_, ?_⟩
  · intro h
    rw [agentMetricsFor_winRate, if_neg (by omega)]
  · intro h
    rw [agentMetricsFor_winRate, if_pos h]
  · intro h
    rw [agentMetricsFor_bidToWinRatio, if_pos h]
  · intro h hb
    rw [agentMetricsFor_bidToWinRatio, if_neg (by omega), if_pos hb]
  · intro h hb
    rw [agentMetricsFor_bidToWinRatio, if_neg (by omega), if_neg (by omega)]

/-- Witness for C7 at `loneBidderGraph` and its agent node (the spec's
example agent `A2`: one bid, no wins). -/
theorem C7_agent_rate_guards_witness :
    ({ id := "A2", role := "agent" } : Node) ∈ loneBidderGraph.nodes ∧
    ({ id := "A2", role := "agent" } : Node).role = "agent" ∧
    (agentMetricsFor loneBidderGraph.links { id := "A2", role := "agent" } ∈
        calculateAgentMetrics loneBidderGraph ∧
      ((agentMetricsFor loneBidderGraph.links { id := "A2", role := "agent" }).bids = 0 →
        (agentMetricsFor loneBidderGraph.links { id := "A2", role := "agent" }).winRate = 0) ∧
      (0 < (agentMetricsFor loneBidderGraph.links { id := "A2", role := "agent" }).bids →
        (agentMetricsFor loneBidderGraph.links { id := "A2", role := "agent" }).winRate =
          ((agentMetricsFor loneBidderGraph.links { id := "A2", role := "agent" }).wins : ℚ) /
            ((agentMetricsFor loneBidderGraph.links { id := "A2", role := "agent" }).bids : ℚ)) ∧
      (0 < (agentMetricsFor loneBidderGraph.links { id := "A2", role := "agent" }).wins →
        (agentMetricsFor loneBidderGraph.links { id := "A2", role := "agent" }).bidToWinRatio =
          ((agentMetricsFor loneBidderGraph.links { id := "A2", role := "agent" }).bids : ℚ) /
            ((agentMetricsFor loneBidderGraph.links { id := "A2", role := "agent" }).wins : ℚ)) ∧
      ((agentMetricsFor loneBidderGraph.links { id := "A2", role := "agent" }).wins = 0 →
        0 < (agentMetricsFor loneBidderGraph.links { id := "A2", role := "agent" }).bids →
        (agentMetricsFor loneBidderGraph.links { id := "A2", role := "agent" }).bidToWinRatio =
          ((agentMetricsFor loneBidderGraph.links { id := "A2", role := "agent" }).bids : ℚ)) ∧
      ((agentMetricsFor loneBidderGraph.links { id := "A2", role := "agent" }).wins = 0 →
        (agentMetricsFor loneBidderGraph.links { id := "A2", role := "agent" }).bids = 0 →
        (agentMetricsFor loneBidderGraph.links { id := "A2", role := "agent" }).bidToWinRatio = 0)) :=
  ⟨by simp [loneBidderGraph], rfl,
    C7_agent_rate_guards loneBidderGraph _ (by simp [loneBidderGraph]) rfl⟩

lemma networkDensityEntry_eq (g : GraphData) :
    networkDensityEntry g =
      if 0 < agentCount g.nodes * taskCount g.nodes then
        (assignedCount g.links : ℚ) /
          ((agentCount g.nodes * taskCount g.nodes : ℕ) : ℚ)
      else 0 := rfl

lemma clusteringCoefficientOf_eq (nodes : List Node) (links : List Link)
    (n : Node) :
    clusteringCoefficientOf nodes links n =
      if (adjOf nodes links n.id).length < 2 then 0
      else (countPairs (adjOf nodes links) (adjOf nodes links n.id) : ℚ) /
        (((adjOf nodes links n.id).length : ℚ) *
          (((adjOf nodes links n.id).length : ℚ) - 1) / 2) := rfl

lemma marketMetrics_networkDensity (log2 sqrt : ℚ → ℚ) (g : GraphData) :
    (calculateMarketMetrics log2 sqrt g).networkDensity =
      if 0 < agentCount g.nodes * taskCount g.nodes then
        (actualConnections g : ℚ) /
          ((agentCount g.nodes * taskCount g.nodes : ℕ) : ℚ)
      else 0 := rfl

lemma marketMetrics_giniCoefficient (log2 sqrt : ℚ → ℚ) (g : GraphData) :
    (calculateMarketMetrics log2 sqrt g).giniCoefficient =
      calculateGiniCoefficient (winValues g) := rfl

/-- C3 counterexample: `parallelGraph` has one agent and one task joined by
two parallel `assigned` links, so both density computations report 2,
outside the claimed range `[0,1]`. -/
theorem C3_counterexample :
    (calculateMarketMetrics (fun q => q) (fun q => q) parallelGraph).networkDensity = 2 ∧
    networkDensityEntry parallelGraph = 2 ∧ ¬ ((2 : ℚ) ≤ 1) := by
  refine ⟨?_, ?_, by norm_num⟩
  · rw [marketMetrics_networkDensity]
    simp [agentCount, taskCount, actualConnections, findNodeByID, parallelGraph]
  · simp [networkDensityEntry, agentCount, taskCount, assignedCount,
      parallelGraph]

/-- C3 (amended): both network-density computations are non-negative and
are 0 whenever the graph has no agent nodes or no task nodes; the upper
bound 1 of the claim does not hold in general (parallel links can push the
ratio above 1). -/
theorem C3_network_density (log2 sqrt : ℚ → ℚ) (g : GraphData) :
    0 ≤ (calculateMarketMetrics log2 sqrt g).networkDensity ∧
    0 ≤ networkDensityEntry g ∧
    (agentCount g.nodes = 0 ∨ taskCount g.nodes = 0 →
      (calculateMarketMetrics log2 sqrt g).networkDensity = 0 ∧
      networkDensityEntry g = 0) := by
  have hzero : agentCount g.nodes = 0 ∨ taskCount g.nodes = 0 →
      ¬ 0 < agentCount g.nodes * taskCount g.nodes := by
    rintro (h | h) <;> simp [h]
  refine ⟨?_, ?_, fun h => ⟨?_, ?_⟩⟩
  · rw [marketMetrics_networkDensity]
    split
    · positivity
    · exact le_refl 0
  · rw [networkDensityEntry_eq]
    split
    · positivity
    · exact le_refl 0
  · rw [marketMetrics_networkDensity, if_neg (hzero h)]
  · rw [networkDensityEntry_eq, if_neg (hzero h)]

/-- Witness for C3 at `agentOnlyGraph` (one agent, no tasks). -/
theorem C3_network_density_witness :
    (agentCount agentOnlyGraph.nodes = 0 ∨ taskCount agentOnlyGraph.nodes = 0) ∧
    (0 ≤ (calculateMarketMetrics (fun q => q) (fun q => q) agentOnlyGraph).networkDensity ∧
      0 ≤ networkDensityEntry agentOnlyGraph ∧
      (agentCount agentOnlyGraph.nodes = 0 ∨ taskCount agentOnlyGraph.nodes = 0 →
        (calculateMarketMetrics (fun q => q) (fun q => q) agentOnlyGraph).networkDensity = 0 ∧
        networkDensityEntry agentOnlyGraph = 0)) :=
  ⟨Or.inr (by simp [taskCount, agentOnlyGraph]),
    C3_network_density (fun q => q) (fun q => q) agentOnlyGraph⟩

lemma two_mul_countPairs_le (adjFn : String → List String) :
    ∀ l : List String, 2 * countPairs adjFn l ≤ l.length * (l.length - 1)
  | [] => le_refl 0
  | x :: xs => by
    have ih := two_mul_countPairs_le adjFn xs
    have hf : (xs.filter (fun y => (adjFn x).contains y)).length ≤ xs.length :=
      List.length_filter_le _ xs
    have key : (xs.length + 1) * (xs.length + 1 - 1) =
        2 * xs.length + xs.length * (xs.length - 1) := by
      cases xs.length with
      | zero => rfl
      | succ m =>
        simp only [Nat.add_sub_cancel]
        ring
    simp only [countPairs, List.length_cons]
    omega

/-- C8: every local clustering coefficient produced by
`getClusteringCoefficients` lies in `[0,1]`, and a node with fewer than two
distinct neighbors gets exactly 0. -/
theorem C8_clustering_coefficient_bounds (nodes : List Node)
    (links : List Link) (n : Node) (hn : n ∈ nodes) :
    clusteringCoefficientOf nodes links n ∈ getClusteringCoefficients nodes links ∧
    0 ≤ clusteringCoefficientOf nodes links n ∧
    clusteringCoefficientOf nodes links n ≤ 1 ∧
    ((adjOf nodes links n.id).length < 2 →
      clusteringCoefficientOf nodes links n = 0) := by
  refine ⟨List.mem_map_of_mem _ hn, ?_, ?_, ?_⟩
  · rw [clusteringCoefficientOf_eq]
    split
    · exact le_refl 0
    · rename_i hk
      have hk2 : (2 : ℚ) ≤ ((adjOf nodes links n.id).length : ℚ) := by
        exact_mod_cast (by omega : 2 ≤ (adjOf nodes links n.id).length)
      apply div_nonneg (Nat.cast_nonneg _)
      nlinarith
  · rw [clusteringCoefficientOf_eq]
    split
    · exact zero_le_one
    · rename_i hk
      set neighbors := adjOf nodes links n.id with hnb
      set k := neighbors.length with hkdef
      have hk2 : 2 ≤ k := by omega
      have hkq : (2 : ℚ) ≤ (k : ℚ) := by exact_mod_cast hk2
      have hden : (0 : ℚ) < (k : ℚ) * ((k : ℚ) - 1) / 2 := by
        have : (1 : ℚ) ≤ (k : ℚ) - 1 := by linarith
        nlinarith
      rw [div_le_one hden]
      have hcount := two_mul_countPairs_le (adjOf nodes links) neighbors
      have hcast : ((k * (k - 1) : ℕ) : ℚ) = (k : ℚ) * ((k : ℚ) - 1) := by
        push_cast [Nat.cast_sub (by omega : 1 ≤ k)]
        ring
      have : (2 : ℚ) * (countPairs (adjOf nodes links) neighbors : ℚ) ≤
          (k : ℚ) * ((k : ℚ) - 1) := by
        rw [← hcast]
        exact_mod_cast hcount
      linarith
  · intro h
    rw [clusteringCoefficientOf_eq, if_pos h]

/-- Witness for C8 at `parallelGraph` and its agent node. -/
theorem C8_clustering_coefficient_bounds_witness :
    ({ id := "A1", role := "agent" } : Node) ∈ parallelGraph.nodes ∧
    (clusteringCoefficientOf parallelGraph.nodes parallelGraph.links
        { id := "A1", role := "agent" } ∈
      getClusteringCoefficients parallelGraph.nodes parallelGraph.links ∧
      0 ≤ clusteringCoefficientOf parallelGraph.nodes parallelGraph.links
        { id := "A1", role := "agent" } ∧
      clusteringCoefficientOf parallelGraph.nodes parallelGraph.links
        { id := "A1", role := "agent" } ≤ 1 ∧
      ((adjOf parallelGraph.nodes parallelGraph.links
          ({ id := "A1", role := "agent" } : Node).id).length < 2 →
        clusteringCoefficientOf parallelGraph.nodes parallelGraph.links
          { id := "A1", role := "agent" } = 0)) :=
  ⟨by simp [parallelGraph],
    C8_clustering_coefficient_bounds parallelGraph.nodes parallelGraph.links
      _ (by simp [parallelGraph])⟩

lemma agentMetricsFor_totalValue (links : List Link) (node : Node) :
    (agentMetricsFor links node).totalValue = totalWinValue links node.id := rfl

lemma winValues_append_zero (g : GraphData) (extra : List Node)
    (hz : ∀ a ∈ extra, totalWinValue g.links a.id = 0) :
    winValues { nodes := g.nodes ++ extra, links := g.links } = winValues g := by
  unfold winValues calculateAgentMetrics
  simp only [List.filter_append, List.map_append]
  have hnil : ((extra.filter (fun n => n.role == "agent")).map
      (agentMetricsFor g.links)).filter (fun a => decide (0 < a.totalValue)) = [] := by
    rw [List.filter_eq_nil_iff]
    intro a ha
    rcases List.mem_map.mp ha with ⟨x, hx, rfl⟩
    have hx' : x ∈ extra := (List.mem_filter.mp hx).1
    rw [agentMetricsFor_totalValue, hz x hx']
    simp
  rw [hnil]
  simp

/-- C9: the market Gini input keeps only agents with strictly positive total
won value, so appending any number of zero-total-value agent nodes to the
graph leaves the reported `GiniCoefficient` unchanged. -/
theorem C9_gini_ignores_zero_value_agents (log2 sqrt : ℚ → ℚ)
    (g : GraphData) (extra : List Node)
    (hz : ∀ a ∈ extra, totalWinValue g.links a.id = 0) :
    (calculateMarketMetrics log2 sqrt
        { nodes := g.nodes ++ extra, links := g.links }).giniCoefficient =
      (calculateMarketMetrics log2 sqrt g).giniCoefficient := by
  rw [marketMetrics_giniCoefficient, marketMetrics_giniCoefficient,
    winValues_append_zero g extra hz]

/-- Witness for C9: appending the idle agent `Z1` to `oneWinGraph` leaves
the Gini coefficient unchanged. -/
theorem C9_gini_ignores_zero_value_agents_witness :
    (∀ a ∈ [idleAgent], totalWinValue oneWinGraph.links a.id = 0) ∧
    (calculateMarketMetrics (fun q => q) (fun q => q)
        { nodes := oneWinGraph.nodes ++ [idleAgent],
          links := oneWinGraph.links }).giniCoefficient =
      (calculateMarketMetrics (fun q => q) (fun q => q)
        oneWinGraph).giniCoefficient :=
  ⟨by simp [idleAgent, oneWinGraph, totalWinValue],
    C9_gini_ignores_zero_value_agents (fun q => q) (fun q => q) oneWinGraph
      [idleAgent] (by simp [idleAgent, oneWinGraph, totalWinValue])⟩

/-- Witness for C5 at the concrete input `[1, 2]`. -/
theorem C5_lorenz_curve_spec_witness :
    (∀ v ∈ ([1, 2] : List ℚ), 0 ≤ v) ∧
    ((0 < ([1, 2] : List ℚ).sum →
      (calculateLorenzCurve [1, 2]).length = ([1, 2] : List ℚ).length + 1 ∧
      (calculateLorenzCurve [1, 2]).head? = some { x := 0, y := 0 } ∧
      (calculateLorenzCurve [1, 2]).getLast? = some { x := 1, y := 1 } ∧
      List.Chain' (fun a b => a.y ≤ b.y) (calculateLorenzCurve [1, 2])) ∧
    (([1, 2] : List ℚ) ≠ [] → ([1, 2] : List ℚ).sum = 0 →
      calculateLorenzCurve [1, 2] = [{ x := 0, y := 0 }, { x := 1, y := 1 }])) :=
  ⟨by decide, C5_lorenz_curve_spec [1, 2] (by decide)⟩

end SWEChain
